import Mathlib

/-!
Shallow embedding of `src/v/rpc/connection_cache.cc` (namespace `rpc`),
the per-shard RPC connection registry of the repository, together with the
natural-language specification's claims about it, settled as theorems.

The registry keeps, per shard, a map from node id to a shared handle on a
`reconnect_transport`; it exposes `emplace` (insert), `remove`, lookup and
`stop`, enforces shard affinity and serializes mutations through a
single-unit semaphore (`with_semaphore(_sem, 1, ...)`).
-/

namespace Rpc

/-- Node identifier (`model::node_id`), an opaque totally ordered value. -/
abbrev NodeId := Nat

/-- Transport configuration (`rpc::transport_configuration`): a value object
describing how to reach a peer.  The field `stop_ok` models the externally
determined outcome of the constructed transport's asynchronous `stop()`
(the reconnect transport is an external collaborator; whether its shutdown
succeeds is decided outside the registry). -/
structure transport_configuration where
  server_addr : Nat
  stop_ok : Bool
  deriving DecidableEq, Repr

/-- Reconnecting transport (`rpc::reconnect_transport`), external
collaborator: constructed from a configuration; we record the configuration
it was built from and how many shutdown requests it has received. -/
structure reconnect_transport where
  cfg : transport_configuration
  stop_requests : Nat
  deriving DecidableEq, Repr

/-- Construction `make_lw_shared<rpc::reconnect_transport>(std::move(c))`:
a fresh transport built from configuration `c`, no shutdown requests yet. -/
def reconnect_transport.make (c : transport_configuration) : reconnect_transport :=
  { cfg := c, stop_requests := 0 }

/-- An asynchronous `stop()` on one transport: the transport records one
shutdown request; the Bool is whether the shutdown succeeded (externally
determined, carried by the configuration). -/
def reconnect_transport.stop (t : reconnect_transport) :
    reconnect_transport × Bool :=
  ({ t with stop_requests := t.stop_requests + 1 }, t.cfg.stop_ok)

/-- Modelled from the spec: the shard ownership policy `shard_for`
(declared in `rpc/connection_cache.h`, which is not part of the excerpt) is
"pure and deterministic - the same node identifier always maps to the same
shard for the lifetime of a given shard-count configuration"; it is consumed
as an opaque deterministic policy, so any pure function of the node id and
the shard count is a faithful model. -/
def shard_for (smp : Nat) (n : NodeId) : Nat :=
  n % smp

/-- The per-shard map (`_cache`, a standard C++ hash map from node id to
shared transport handle), modelled as an association list with unique keys. -/
abbrev CacheMap := List (NodeId × reconnect_transport)

/-- Semantics of `_cache.find(n)` on a standard C++ map: the value stored
under key `n`, if any. -/
def map_lookup (n : NodeId) : CacheMap → Option reconnect_transport
  | [] => none
  | (k, t) :: rest => if k = n then some t else map_lookup n rest

/-- Semantics of `_cache.emplace(n, t)` on a standard C++ map: the element
is inserted only if no element with key `n` is already present; an existing
entry is NOT replaced. -/
def map_emplace (n : NodeId) (t : reconnect_transport) (m : CacheMap) :
    CacheMap :=
  if (map_lookup n m).isSome then m else (n, t) :: m

/-- Semantics of `_cache.erase(n)`: drop the entry with key `n` if present,
leaving every other entry untouched. -/
def map_erase (n : NodeId) : CacheMap → CacheMap
  | [] => []
  | (k, t) :: rest => if k = n then map_erase n rest else (k, t) :: map_erase n rest

/-- Errors surfaced by the registry: the shard-affinity violation thrown by
`emplace`/`remove` on a non-owning shard (`std::runtime_error` in the
source), and a shutdown failure propagated by `stop`. -/
inductive CacheError where
  | ShardAffinityViolation : NodeId → Nat → Nat → CacheError
  | ShutdownFailed : NodeId → CacheError
  deriving DecidableEq, Repr

/-- Observable events on the per-shard mutation slot (the single-unit
semaphore `_sem`): acquisition and release by `with_semaphore(_sem, 1, f)`. -/
inductive Event where
  | acquireSlot : Event
  | releaseSlot : Event
  deriving DecidableEq, Repr

/-- State of one shard's `rpc::connection_cache` instance: the map `_cache`
and the available units of the mutation-exclusion semaphore `_sem`
(initialized with a single unit). -/
structure connection_cache where
  cache : CacheMap
  sem : Nat
  deriving DecidableEq, Repr

/-- A freshly constructed per-shard registry: empty map, one semaphore unit
(the single mutation slot). -/
def connection_cache.init : connection_cache :=
  { cache := [], sem := 1 }

/-- Lookup of the current shared handle for `n` on the local shard
(`_cache.find`): the handle if present, otherwise an empty result.
Non-mutating; does not touch the semaphore. -/
def connection_cache.lookup (st : connection_cache) (n : NodeId) :
    Option reconnect_transport :=
  map_lookup n st.cache

/-- Big-step embedding of `connection_cache::emplace(n, c)` executing on
shard `cpu` (the value of `engine().cpu_id()`) with `smp` shards in total.
The source first checks `shard_for(n) != engine().cpu_id()` and throws
before touching the semaphore or the map; on the owning shard it runs
`with_semaphore(_sem, 1, ...)` (the slot is acquired, the body
`_cache.emplace(n, make_lw_shared<reconnect_transport>(c))` runs, the slot
is released), so the semaphore's unit count is restored on completion.
The returned event list is the trace of mutation-slot operations. -/
def connection_cache.emplace (smp cpu : Nat) (n : NodeId)
    (c : transport_configuration) (st : connection_cache) :
    connection_cache × Except CacheError Unit × List Event :=
  if shard_for smp n ≠ cpu then
    (st, Except.error (CacheError.ShardAffinityViolation n (shard_for smp n) cpu), [])
  else
    ({ st with cache := map_emplace n (reconnect_transport.make c) st.cache },
     Except.ok (), [Event.acquireSlot, Event.releaseSlot])

/-- Big-step embedding of `connection_cache::remove(n)` executing on shard
`cpu`: same shard-affinity check (throwing before the semaphore), then
`with_semaphore(_sem, 1, [..]{ _cache.erase(n); })`. -/
def connection_cache.remove (smp cpu : Nat) (n : NodeId)
    (st : connection_cache) :
    connection_cache × Except CacheError Unit × List Event :=
  if shard_for smp n ≠ cpu then
    (st, Except.error (CacheError.ShardAffinityViolation n (shard_for smp n) cpu), [])
  else
    ({ st with cache := map_erase n st.cache },
     Except.ok (), [Event.acquireSlot, Event.releaseSlot])

/-- Big-step embedding of `connection_cache::stop()`:
`parallel_for_each(_cache, [](auto& it){ return it.second->stop(); })` sends
a shutdown request to every entry currently in the map, waits for all of
them to finish even when some fail, and then resolves exceptionally if any
failed (seastar's `parallel_for_each` semantics).  The map entries are NOT
erased by `stop`.  The result pairs the post state (every transport has
received one more shutdown request; the map keys are untouched) with the
surfaced outcome (the first failing entry's error, if any). -/
def connection_cache.stop (st : connection_cache) :
    connection_cache × Except CacheError Unit :=
  ({ st with cache := st.cache.map (fun p => (p.1, (p.2.stop).1)) },
   match st.cache.find? (fun p => !(p.2.stop).2) with
   | some p => Except.error (CacheError.ShutdownFailed p.1)
   | none => Except.ok ())

/-!
Interleaving model of concurrent mutations on one shard.  The source's
comment on `emplace` says the future exists "because mutations may come
from different fibers and they need to be synchronized": several mutation
tasks may be pending on the shard at once, and `with_semaphore(_sem, 1, ...)`
admits them one at a time.  We model each pending `emplace`/`remove` call as
a task that (1) runs the shard-affinity check, (2) waits for the mutation
slot, (3) holds the slot while mutating the map, then releases it.
-/

/-- A pending mutation: an `emplace` (with its configuration) or a `remove`. -/
inductive MutOp where
  | ins : NodeId → transport_configuration → MutOp
  | rem : NodeId → MutOp
  deriving DecidableEq, Repr

/-- Target node of a mutation. -/
def MutOp.node : MutOp → NodeId
  | MutOp.ins n _ => n
  | MutOp.rem n => n

/-- Effect of a mutation's critical section on the map: the body passed to
`with_semaphore` in `emplace` respectively `remove`. -/
def MutOp.apply : MutOp → CacheMap → CacheMap
  | MutOp.ins n c, m => map_emplace n (reconnect_transport.make c) m
  | MutOp.rem n, m => map_erase n m

/-- Phase of one mutation task on the shard's task stream. -/
inductive Phase where
  | started   -- call entered, shard-affinity check not yet run
  | waiting   -- check passed, waiting on the mutation slot
  | critical  -- holds the mutation slot, mutating the map
  | finished  -- slot released, future resolved
  | failed    -- shard-affinity check threw; slot never touched
  deriving DecidableEq, Repr

/-- One in-flight mutation call. -/
structure Task where
  op : MutOp
  phase : Phase
  deriving DecidableEq, Repr

/-- State of one shard with its pending mutation tasks: the map, the
available units of the mutation semaphore `_sem`, and the task list. -/
structure ShardState where
  cache : CacheMap
  sem : Nat
  tasks : List Task
  deriving DecidableEq, Repr

/-- Small-step interleaving semantics of mutation calls on shard `cpu` of
`smp` shards: any task may advance one phase at any moment, subject to the
semaphore guard.  The four steps are the affinity check passing, the check
throwing, slot acquisition (needs an available unit) and the critical
section plus release. -/
inductive MutStep (smp cpu : Nat) : ShardState → ShardState → Prop where
  | check_ok (cache : CacheMap) (sem : Nat) (pre post : List Task) (op : MutOp) :
      shard_for smp op.node = cpu →
      MutStep smp cpu
        ⟨cache, sem, pre ++ ⟨op, Phase.started⟩ :: post⟩
        ⟨cache, sem, pre ++ ⟨op, Phase.waiting⟩ :: post⟩
  | check_fail (cache : CacheMap) (sem : Nat) (pre post : List Task) (op : MutOp) :
      shard_for smp op.node ≠ cpu →
      MutStep smp cpu
        ⟨cache, sem, pre ++ ⟨op, Phase.started⟩ :: post⟩
        ⟨cache, sem, pre ++ ⟨op, Phase.failed⟩ :: post⟩
  | acquire (cache : CacheMap) (sem : Nat) (pre post : List Task) (op : MutOp) :
      MutStep smp cpu
        ⟨cache, sem + 1, pre ++ ⟨op, Phase.waiting⟩ :: post⟩
        ⟨cache, sem, pre ++ ⟨op, Phase.critical⟩ :: post⟩
  | commit (cache : CacheMap) (sem : Nat) (pre post : List Task) (op : MutOp) :
      MutStep smp cpu
        ⟨cache, sem, pre ++ ⟨op, Phase.critical⟩ :: post⟩
        ⟨op.apply cache, sem + 1, pre ++ ⟨op, Phase.finished⟩ :: post⟩

/-- Number of tasks currently inside the critical section. -/
def critCount (ts : List Task) : Nat :=
  ts.countP (fun t => t.phase == Phase.critical)

/-- The semaphore accounting invariant: the available units plus the tasks
holding the slot always add up to the single unit `_sem` starts with. -/
def SlotInv (s : ShardState) : Prop :=
  s.sem + critCount s.tasks = 1

/-- A shard in its initial condition: semaphore at one unit (the single
mutation slot) and every pending mutation call not yet started. -/
def initialShard (cache : CacheMap) (ops : List MutOp) : ShardState :=
  ⟨cache, 1, ops.map (fun op => ⟨op, Phase.started⟩)⟩

/-!
Concrete states used by counterexamples and witnesses below.
-/

/-- State after the first insert of the C1 scenario: `insert(A, C1)` with
`A = 0`, `C1 = ⟨10, true⟩`, on the single shard of a one-shard system. -/
def cexC1_st1 : connection_cache :=
  (connection_cache.emplace 1 0 0 ⟨10, true⟩ connection_cache.init).1

/-- State after the second insert of the C1 scenario: `insert(A, C2)` with
`C2 = ⟨20, true⟩`. -/
def cexC1_st2 : connection_cache :=
  (connection_cache.emplace 1 0 0 ⟨20, true⟩ cexC1_st1).1

/-- State after `insert(A, C1)` of the C2 scenario (`A = 7`, owning shard of
a one-shard system, starting from a fresh registry). -/
def cexC2_st1 : connection_cache :=
  (connection_cache.emplace 1 0 7 ⟨11, true⟩ connection_cache.init).1

/-- Registry of the C7 counterexample: node 3 already has an entry built
from configuration `⟨30, true⟩`. -/
def cexC7_st : connection_cache :=
  { cache := [(3, reconnect_transport.make ⟨30, true⟩)], sem := 1 }

/-- The shard ownership policy viewed as an operation executed against a
registry state: it reads no registry state and writes none, returning only
the computed shard index. -/
def shard_for_call (st : connection_cache) (smp : Nat) (n : NodeId) :
    Nat × connection_cache :=
  (shard_for smp n, st)

/-- Registry used by the C9 witness: node 1 holds an entry while node 0 is
mutated. -/
def cexC9_st : connection_cache :=
  { cache := [(1, reconnect_transport.make ⟨60, true⟩)], sem := 1 }

/-!
Helper lemmas about the association-list map operations.
-/

/-- Looking up the key just emplaced into a map with no entry for it. -/
lemma map_lookup_emplace_self (n : NodeId) (t : reconnect_transport)
    (m : CacheMap) (h : map_lookup n m = none) :
    map_lookup n (map_emplace n t m) = some t := by
  simp [map_emplace, h, map_lookup]

/-- Emplacing over an existing entry leaves the map untouched. -/
lemma map_emplace_of_lookup_some (n : NodeId) (t : reconnect_transport)
    (m : CacheMap) (h : (map_lookup n m).isSome) :
    map_emplace n t m = m := by
  simp [map_emplace, h]

/-- Emplace does not disturb the entry of any other key. -/
lemma map_lookup_emplace_ne (n k : NodeId) (t : reconnect_transport)
    (m : CacheMap) (h : k ≠ n) :
    map_lookup k (map_emplace n t m) = map_lookup k m := by
  unfold map_emplace
  by_cases hs : (map_lookup n m).isSome
  · simp [hs]
  · have hne : n ≠ k := fun hq => h hq.symm
    simp [hs, map_lookup, hne]

/-- Erase does not disturb the entry of any other key. -/
lemma map_lookup_erase_ne (n k : NodeId) (m : CacheMap) (h : k ≠ n) :
    map_lookup k (map_erase n m) = map_lookup k m := by
  induction m with
  | nil => rfl
  | cons p rest ih =>
    obtain ⟨a, t⟩ := p
    have hnk : n ≠ k := fun hq => h hq.symm
    by_cases ha : a = n
    · simp [map_erase, map_lookup, ha, hnk, ih]
    · by_cases hak : a = k
      · simp [map_erase, map_lookup, ha, hak, hnk, h]
      · simp [map_erase, map_lookup, ha, hak, ih]

/-- Erasing a key that is absent changes nothing. -/
lemma map_erase_of_lookup_none (n : NodeId) (m : CacheMap)
    (h : map_lookup n m = none) :
    map_erase n m = m := by
  induction m with
  | nil => rfl
  | cons p rest ih =>
    obtain ⟨a, t⟩ := p
    by_cases ha : a = n
    · simp [map_lookup, ha] at h
    · simp [map_lookup, ha] at h
      simp [map_erase, ha, ih h]

/-!
Claim C1.
-/

/-- C1 counterexample: after `insert(A, C1)` then `insert(A, C2)` on the
owning shard (both succeeding), `lookup(A)` does NOT return a transport
built from `C2`: the source's `_cache.emplace` inserts only when the key is
absent, so the prior entry is kept, not replaced. -/
theorem emplace_not_last_write_wins_cex :
    (connection_cache.emplace 1 0 0 ⟨10, true⟩ connection_cache.init).2.1
        = Except.ok () ∧
    (connection_cache.emplace 1 0 0 ⟨20, true⟩ cexC1_st1).2.1 = Except.ok () ∧
    Option.map reconnect_transport.cfg (cexC1_st2.lookup 0) ≠ some ⟨20, true⟩ := by
  refine ⟨rfl, rfl, ?_⟩
  decide

/-- C1 (amended): for a node with no prior entry, after `insert(n, C1)` then
`insert(n, C2)` on the owning shard both calls succeed, but the second does
not replace the entry: `lookup(n)` returns the transport built from `C1`
(first write wins). -/
theorem emplace_first_write_wins (smp cpu : Nat) (n : NodeId)
    (c1 c2 : transport_configuration) (st : connection_cache)
    (hshard : shard_for smp n = cpu) (hfresh : st.lookup n = none) :
    (connection_cache.emplace smp cpu n c1 st).2.1 = Except.ok () ∧
    (connection_cache.emplace smp cpu n c2
        (connection_cache.emplace smp cpu n c1 st).1).2.1 = Except.ok () ∧
    ((connection_cache.emplace smp cpu n c2
        (connection_cache.emplace smp cpu n c1 st).1).1).lookup n =
      some (reconnect_transport.make c1) := by
  have h1 : map_lookup n st.cache = none := hfresh
  have h2 : map_lookup n (map_emplace n (reconnect_transport.make c1) st.cache)
      = some (reconnect_transport.make c1) :=
    map_lookup_emplace_self _ _ _ h1
  have h3 : map_emplace n (reconnect_transport.make c2)
        (map_emplace n (reconnect_transport.make c1) st.cache)
      = map_emplace n (reconnect_transport.make c1) st.cache :=
    map_emplace_of_lookup_some _ _ _ (by simp [h2])
  simp [connection_cache.emplace, connection_cache.lookup, hshard, h3, h2]

/-- Witness for the amended C1 at concrete inputs. -/
theorem emplace_first_write_wins_witness :
    (connection_cache.emplace 2 1 3 ⟨21, true⟩
        (connection_cache.emplace 2 1 3 ⟨11, true⟩ connection_cache.init).1).1.lookup 3 =
      some (reconnect_transport.make ⟨11, true⟩) :=
  (emplace_first_write_wins 2 1 3 ⟨11, true⟩ ⟨21, true⟩ connection_cache.init
    (by decide) (by decide)).2.2

/-!
Claim C2.
-/

/-- C2 counterexample: after `insert(A, C1)` then `stop()` the map does NOT
have zero entries - `connection_cache::stop` only fans out `stop()` to each
transport and never erases the entries. -/
theorem stop_does_not_clear_map_cex :
    (connection_cache.stop cexC2_st1).1.cache.length ≠ 0 := by
  decide

/-- C2 (amended): after `insert(A, C1)` on the owning shard of a fresh
registry followed by `stop()`, the transport built from `C1` has received
exactly one shutdown request, but the map still holds its single entry for
`A` (stop does not erase entries). -/
theorem stop_after_insert (smp cpu : Nat) (A : NodeId)
    (c : transport_configuration) (hshard : shard_for smp A = cpu) :
    ((connection_cache.stop
        (connection_cache.emplace smp cpu A c connection_cache.init).1).1).cache.length
      = 1 ∧
    ((connection_cache.stop
        (connection_cache.emplace smp cpu A c connection_cache.init).1).1).lookup A =
      some { cfg := c, stop_requests := 1 } := by
  simp [connection_cache.emplace, connection_cache.stop, connection_cache.init,
        connection_cache.lookup, hshard, map_emplace, map_lookup,
        reconnect_transport.make, reconnect_transport.stop]

/-- Witness for the amended C2 at concrete inputs. -/
theorem stop_after_insert_witness :
    ((connection_cache.stop
        (connection_cache.emplace 1 0 7 ⟨11, true⟩ connection_cache.init).1).1).cache.length
      = 1 ∧
    ((connection_cache.stop
        (connection_cache.emplace 1 0 7 ⟨11, true⟩ connection_cache.init).1).1).lookup 7 =
      some { cfg := ⟨11, true⟩, stop_requests := 1 } :=
  stop_after_insert 1 0 7 ⟨11, true⟩ (by decide)

/-!
Claim C3.
-/

/-- C3: a mutation (`emplace` or `remove`) invoked on a shard that does not
own the node fails synchronously with the shard-affinity violation and
returns the shard's state unchanged (map and semaphore untouched, no slot
events). -/
theorem wrong_shard_mutation_fails (smp cpu : Nat) (n : NodeId)
    (c : transport_configuration) (st : connection_cache)
    (h : shard_for smp n ≠ cpu) :
    connection_cache.emplace smp cpu n c st =
      (st, Except.error (CacheError.ShardAffinityViolation n (shard_for smp n) cpu), []) ∧
    connection_cache.remove smp cpu n st =
      (st, Except.error (CacheError.ShardAffinityViolation n (shard_for smp n) cpu), []) := by
  simp [connection_cache.emplace, connection_cache.remove, h]

/-- Witness for C3: node 0 belongs to shard 0 of 2, mutated on shard 1. -/
theorem wrong_shard_mutation_fails_witness :
    connection_cache.emplace 2 1 0 ⟨10, true⟩ connection_cache.init =
      (connection_cache.init,
       Except.error (CacheError.ShardAffinityViolation 0 (shard_for 2 0) 1), []) ∧
    connection_cache.remove 2 1 0 connection_cache.init =
      (connection_cache.init,
       Except.error (CacheError.ShardAffinityViolation 0 (shard_for 2 0) 1), []) :=
  wrong_shard_mutation_fails 2 1 0 ⟨10, true⟩ connection_cache.init (by decide)

/-!
Claim C5.
-/

/-- C5: even when at least one transport's shutdown fails, `stop()` still
delivers the shutdown request to EVERY entry in the map (the
`parallel_for_each` waits for all of them; none is abandoned), and only
then surfaces a failure to the caller. -/
theorem stop_waits_for_all (st : connection_cache)
    (hfail : ∃ p ∈ st.cache, p.2.cfg.stop_ok = false) :
    (∀ p ∈ st.cache, (p.1, { p.2 with stop_requests := p.2.stop_requests + 1 })
        ∈ ((connection_cache.stop st).1).cache) ∧
    ∃ e, (connection_cache.stop st).2 = Except.error e := by
  constructor
  · intro p hp
    simp only [connection_cache.stop]
    exact List.mem_map.mpr ⟨p, hp, by simp [reconnect_transport.stop]⟩
  · obtain ⟨p, hp, hbad⟩ := hfail
    have hex : ∃ q, q ∈ st.cache ∧ (!(q.2.stop).2) = true :=
      ⟨p, hp, by simp [reconnect_transport.stop, hbad]⟩
    have hsome : (st.cache.find? (fun q => !(q.2.stop).2)).isSome :=
      List.find?_isSome.mpr hex
    obtain ⟨q, hq⟩ := Option.isSome_iff_exists.mp hsome
    exact ⟨CacheError.ShutdownFailed q.1, by simp [connection_cache.stop, hq]⟩

/-- Witness for C5: a registry with one failing and one succeeding
transport. -/
theorem stop_waits_for_all_witness :
    (∀ p ∈ ({ cache := [(0, reconnect_transport.make ⟨10, false⟩),
                        (1, reconnect_transport.make ⟨20, true⟩)], sem := 1 }
              : connection_cache).cache,
      (p.1, { p.2 with stop_requests := p.2.stop_requests + 1 })
        ∈ ((connection_cache.stop
             { cache := [(0, reconnect_transport.make ⟨10, false⟩),
                         (1, reconnect_transport.make ⟨20, true⟩)], sem := 1 }).1).cache) ∧
    ∃ e, (connection_cache.stop
            { cache := [(0, reconnect_transport.make ⟨10, false⟩),
                        (1, reconnect_transport.make ⟨20, true⟩)], sem := 1 }).2 =
          Except.error e :=
  stop_waits_for_all _ ⟨(0, reconnect_transport.make ⟨10, false⟩), by decide, by decide⟩

/-!
Claim C6.
-/

/-- C6: removing a node with no current entry on its owning shard succeeds
silently and changes nothing - the state (map and semaphore) is returned
exactly as it was, the slot having been taken and released. -/
theorem remove_absent_is_noop (smp cpu : Nat) (n : NodeId)
    (st : connection_cache)
    (hshard : shard_for smp n = cpu) (habsent : st.lookup n = none) :
    connection_cache.remove smp cpu n st =
      (st, Except.ok (), [Event.acquireSlot, Event.releaseSlot]) := by
  have he : map_erase n st.cache = st.cache :=
    map_erase_of_lookup_none n st.cache habsent
  simp [connection_cache.remove, hshard, he]

/-- Witness for C6 at concrete inputs. -/
theorem remove_absent_is_noop_witness :
    connection_cache.remove 1 0 5 connection_cache.init =
      (connection_cache.init, Except.ok (), [Event.acquireSlot, Event.releaseSlot]) :=
  remove_absent_is_noop 1 0 5 connection_cache.init (by decide) (by decide)

/-!
Claim C7.
-/

/-- C7 counterexample: an `insert(node, config)` that succeeds on the owning
shard after which `lookup(node)` is NOT backed by `config` - the node
already had an entry, which `_cache.emplace` keeps. -/
theorem emplace_lookup_not_backed_cex :
    (connection_cache.emplace 1 0 3 ⟨40, true⟩ cexC7_st).2.1 = Except.ok () ∧
    Option.map reconnect_transport.cfg
        (((connection_cache.emplace 1 0 3 ⟨40, true⟩ cexC7_st).1).lookup 3) ≠
      some ⟨40, true⟩ := by
  refine ⟨rfl, ?_⟩
  decide

/-- C7 (amended): when the node has NO prior entry, a successful
`insert(node, config)` on the owning shard makes `lookup(node)` return a
non-empty shared handle on the reconnecting transport constructed from
`config`. -/
theorem emplace_fresh_lookup_backed (smp cpu : Nat) (n : NodeId)
    (c : transport_configuration) (st : connection_cache)
    (hshard : shard_for smp n = cpu) (hfresh : st.lookup n = none) :
    (connection_cache.emplace smp cpu n c st).2.1 = Except.ok () ∧
    ((connection_cache.emplace smp cpu n c st).1).lookup n =
      some (reconnect_transport.make c) := by
  have h2 := map_lookup_emplace_self n (reconnect_transport.make c) st.cache hfresh
  simp [connection_cache.emplace, connection_cache.lookup, hshard, h2]

/-- Witness for the amended C7 at concrete inputs. -/
theorem emplace_fresh_lookup_backed_witness :
    (connection_cache.emplace 3 2 5 ⟨50, true⟩ connection_cache.init).2.1 =
        Except.ok () ∧
    ((connection_cache.emplace 3 2 5 ⟨50, true⟩ connection_cache.init).1).lookup 5 =
      some (reconnect_transport.make ⟨50, true⟩) :=
  emplace_fresh_lookup_backed 3 2 5 ⟨50, true⟩ connection_cache.init
    (by decide) (by decide)

/-!
Claim C8.
-/

/-- C8: `shard_for` is pure and deterministic - called with the same node
identifier and shard count from any two registry states, it returns the
same shard index, and it never changes the state it runs against. -/
theorem shard_for_deterministic (smp : Nat) (n : NodeId)
    (st1 st2 : connection_cache) :
    (shard_for_call st1 smp n).1 = (shard_for_call st2 smp n).1 ∧
    (shard_for_call st1 smp n).2 = st1 :=
  ⟨rfl, rfl⟩

/-!
Claim C9.
-/

/-- C9 (frame property): a mutation for node `n` on its owning shard leaves
the entry of every other node `m` exactly as it was, both for `emplace` and
for `remove`. -/
theorem mutation_frame_other_nodes (smp cpu : Nat) (n m : NodeId)
    (c : transport_configuration) (st : connection_cache)
    (hne : m ≠ n) (hshard : shard_for smp n = cpu) :
    ((connection_cache.emplace smp cpu n c st).1).lookup m = st.lookup m ∧
    ((connection_cache.remove smp cpu n st).1).lookup m = st.lookup m := by
  have h1 := map_lookup_emplace_ne n m (reconnect_transport.make c) st.cache hne
  have h2 := map_lookup_erase_ne n m st.cache hne
  simp [connection_cache.emplace, connection_cache.remove, connection_cache.lookup,
        hshard, h1, h2]

/-- Witness for C9 at concrete inputs: mutating node 0 leaves node 1's
entry untouched. -/
theorem mutation_frame_other_nodes_witness :
    ((connection_cache.emplace 1 0 0 ⟨10, true⟩ cexC9_st).1).lookup 1 =
        cexC9_st.lookup 1 ∧
    ((connection_cache.remove 1 0 0 cexC9_st).1).lookup 1 = cexC9_st.lookup 1 :=
  mutation_frame_other_nodes 1 0 0 1 ⟨10, true⟩ cexC9_st (by decide) (by decide)

/-!
Claim C10.
-/

/-- C10: the shard-affinity check precedes slot acquisition - a wrong-shard
`emplace` or `remove` produces no mutation-slot event at all (the trace is
empty: the slot is never waited on or acquired), and both the semaphore and
the map are returned unchanged. -/
theorem wrong_shard_no_slot_interaction (smp cpu : Nat) (n : NodeId)
    (c : transport_configuration) (st : connection_cache)
    (h : shard_for smp n ≠ cpu) :
    (connection_cache.emplace smp cpu n c st).2.2 = [] ∧
    (connection_cache.emplace smp cpu n c st).1.sem = st.sem ∧
    (connection_cache.emplace smp cpu n c st).1 = st ∧
    (connection_cache.remove smp cpu n st).2.2 = [] ∧
    (connection_cache.remove smp cpu n st).1.sem = st.sem ∧
    (connection_cache.remove smp cpu n st).1 = st := by
  simp [connection_cache.emplace, connection_cache.remove, h]

/-- Witness for C10: node 1 belongs to shard 1 of 2, mutated on shard 0. -/
theorem wrong_shard_no_slot_interaction_witness :
    (connection_cache.emplace 2 0 1 ⟨10, true⟩ connection_cache.init).2.2 = [] ∧
    (connection_cache.emplace 2 0 1 ⟨10, true⟩ connection_cache.init).1.sem =
        connection_cache.init.sem ∧
    (connection_cache.emplace 2 0 1 ⟨10, true⟩ connection_cache.init).1 =
        connection_cache.init ∧
    (connection_cache.remove 2 0 1 connection_cache.init).2.2 = [] ∧
    (connection_cache.remove 2 0 1 connection_cache.init).1.sem =
        connection_cache.init.sem ∧
    (connection_cache.remove 2 0 1 connection_cache.init).1 =
        connection_cache.init :=
  wrong_shard_no_slot_interaction 2 0 1 ⟨10, true⟩ connection_cache.init (by decide)

/-!
Claim C4.
-/

/-- The semaphore accounting invariant holds in the initial shard state:
one available unit, nobody in the critical section. -/
lemma initialShard_slotInv (cache : CacheMap) (ops : List MutOp) :
    SlotInv (initialShard cache ops) := by
  simp [SlotInv, initialShard, critCount, List.countP_map, Function.comp]

/-- Every interleaving step preserves the semaphore accounting invariant. -/
lemma mutStep_preserves_slotInv {smp cpu : Nat} {s s' : ShardState}
    (hstep : MutStep smp cpu s s') (hinv : SlotInv s) : SlotInv s' := by
  cases hstep with
  | check_ok cache sem pre post op h =>
    simp [SlotInv, critCount, List.countP_append, List.countP_cons,
          beq_iff_eq] at hinv ⊢
    omega
  | check_fail cache sem pre post op h =>
    simp [SlotInv, critCount, List.countP_append, List.countP_cons,
          beq_iff_eq] at hinv ⊢
    omega
  | acquire cache sem pre post op =>
    simp [SlotInv, critCount, List.countP_append, List.countP_cons,
          beq_iff_eq] at hinv ⊢
    omega
  | commit cache sem pre post op =>
    simp [SlotInv, critCount, List.countP_append, List.countP_cons,
          beq_iff_eq] at hinv ⊢
    omega

/-- C4: mutations on one shard are mutually exclusive - in every state the
shard can reach from an initial state (any pending mutations, any
interleaving of their steps), at most one mutation task is inside the
critical section that holds the single mutation slot, so mutations are
strictly serialized by slot acquisition. -/
theorem mutations_serialized (smp cpu : Nat) (cache : CacheMap)
    (ops : List MutOp) (s : ShardState)
    (h : Relation.ReflTransGen (MutStep smp cpu) (initialShard cache ops) s) :
    critCount s.tasks ≤ 1 := by
  have hinv : SlotInv s := by
    induction h with
    | refl => exact initialShard_slotInv cache ops
    | tail hsteps hstep ih => exact mutStep_preserves_slotInv hstep ih
  unfold SlotInv at hinv
  omega

/-- Witness for C4: the initial state with two pending mutations, reached
by the empty step sequence. -/
theorem mutations_serialized_witness :
    critCount (initialShard [] [MutOp.rem 0, MutOp.ins 1 ⟨5, true⟩]).tasks ≤ 1 :=
  mutations_serialized 1 0 [] [MutOp.rem 0, MutOp.ins 1 ⟨5, true⟩] _
    Relation.ReflTransGen.refl

end Rpc
